import Mathlib

/-!
Shallow embedding of the `Moment2` second-moment beam-transport engine
(`src/moment2.cpp` together with the configuration store of `scsi/base.h`).

Doubles are modelled as exact reals.  The two energy-cache keys
`last_Kenergy_in` / `last_Kenergy_out` are seeded with IEEE NaN in the C++
constructor so that the first comparison `Ekinetic != last_Kenergy_in` is
always true; we model a possibly-NaN double as `Option ℝ` with `none`
standing for NaN, and the cache-miss test `Ekinetic != last_Kenergy_in`
becomes `last_Kenergy_in ≠ some Ekinetic`, which is exactly the IEEE
semantics as long as the state's own kinetic energy is a real number.
-/

open scoped Classical

noncomputable section

/-- Phase-space dimension: `Moment2State::maxsize = 7`
(x, x', y, y', phase, energy offset, homogeneous coordinate). -/
abbrev Vec7 := Fin 7 → ℝ

/-- Square matrix over the 7-dimensional phase space. -/
abbrev Mat7 := Matrix (Fin 7) (Fin 7) ℝ

/-- Modelled from the spec: phase-space index order of `scsi/moment2.h`
(header not under src); the spec fixes the ordering x, x', y, y',
phase, energy-offset, homogeneous. -/
def PS_X : Fin 7 := 0

/-- Horizontal angle index. -/
def PS_PX : Fin 7 := 1

/-- Vertical position index. -/
def PS_Y : Fin 7 := 2

/-- Vertical angle index. -/
def PS_PY : Fin 7 := 3

/-- Longitudinal phase index. -/
def PS_S : Fin 7 := 4

/-- Longitudinal energy-offset index. -/
def PS_PS : Fin 7 := 5

/-- Modelled from the spec: unit conversion constant `MtoMM` of
`scsi/constants.h` (header not under src); metres to millimetres. -/
def MtoMM : ℝ := 1000

/-- Modelled from the spec: speed of light `C0` of `scsi/constants.h`
(header not under src).  No claim depends on its numeric value. -/
def C0 : ℝ := 299792458

/-- Error taxonomy raised by the embedded code: `key_error`,
`boost::bad_any_cast`, `std::invalid_argument`, and the
`std::runtime_error` thrown by the LU inversion helper. -/
inductive Err
  | keyError
  | typeMismatch
  | invalidArgument
  | singular
deriving DecidableEq

/-- Value kinds stored in a `Config` (the kinds the embedded constructors
read: double, string, vector of double). -/
inductive ConfigValue
  | real (r : ℝ)
  | str (s : String)
  | vec (v : List ℝ)

/-- `Config`: a map from string keys to values (`scsi/base.h`). -/
abbrev Config := List (String × ConfigValue)

/-- `Config::getAny`: lookup of the raw value associated with a key. -/
def getAny (c : Config) (s : String) : Option ConfigValue :=
  (c.find? (fun p => p.1 = s)).map (fun p => p.2)

/-- `Config::get<double>(name)`: throws `key_error` if absent,
`bad_any_cast` if present under another kind. -/
def getReal (c : Config) (s : String) : Except Err ℝ :=
  match getAny c s with
  | none => .error .keyError
  | some (.real r) => .ok r
  | some _ => .error .typeMismatch

/-- `Config::get<double>(name, def)`: returns the default on both
`key_error` and `bad_any_cast`. -/
def getRealD (c : Config) (s : String) (d : ℝ) : ℝ :=
  match getAny c s with
  | some (.real r) => r
  | _ => d

/-- `Config::get<std::string>(name)`. -/
def getStr (c : Config) (s : String) : Except Err String :=
  match getAny c s with
  | none => .error .keyError
  | some (.str v) => .ok v
  | some _ => .error .typeMismatch

/-- `Config::get<std::vector<double>>(name)`. -/
def getVec (c : Config) (s : String) : Except Err (List ℝ) :=
  match getAny c s with
  | none => .error .keyError
  | some (.vec v) => .ok v
  | some _ => .error .typeMismatch

/-- Single-entry matrix write `M(i,j) = v` (ublas element assignment). -/
def setEntry (M : Mat7) (i j : Fin 7) (v : ℝ) : Mat7 :=
  fun a b => if a = i ∧ b = j then v else M a b

/-- The anonymous-namespace `inverse` helper of `moment2.cpp`: LU
factorization with partial pivoting followed by substitution.  In exact
arithmetic LU factorization fails precisely on singular matrices, so the
embedding returns the matrix inverse when the determinant is nonzero and
the `runtime_error` (`singular`) otherwise. -/
def inverse (M : Mat7) : Except Err Mat7 :=
  if M.det = 0 then .error .singular else .ok M⁻¹

/-- `Moment2State`: scalar kinematics plus first and second moments.
`next_elem` is the `StateBase` field. -/
structure Moment2State where
  pos : ℝ
  Ekinetic : ℝ
  sync_phase : ℝ
  gamma : ℝ
  beta : ℝ
  moment0 : Vec7
  state : Mat7
  next_elem : ℕ

/-- `Moment2State::Moment2State(const Config&)`: optional scalars with
defaults, optional `moment0` / `initial` initializers copied over a
zero vector / identity matrix prefix-wise (row major), oversize or
wrongly typed initializers fail, then `gamma` and `beta` are derived
from `IonEk` and `Es`.  `next_elem` starts at 0 (StateBase,
modelled from the spec: base.cpp is not under src). -/
def Moment2State.construct (c : Config) : Except Err Moment2State :=
  let pos := getRealD c "L" 0
  let Ek := getRealD c "IonEk" 0
  let fy := getRealD c "IonFy" 0
  match (match getAny c "moment0" with
      | none => .ok (fun _ => (0 : ℝ))
      | some (.vec I) =>
          if I.length > 7 then .error Err.invalidArgument
          else .ok (fun i : Fin 7 =>
            if h : (i : ℕ) < I.length then I.get ⟨i, h⟩ else 0)
      | some _ => .error Err.invalidArgument : Except Err Vec7) with
  | .error e => .error e
  | .ok m0 =>
    match (match getAny c "initial" with
        | none => .ok (1 : Mat7)
        | some (.vec I) =>
            if I.length > 49 then .error Err.invalidArgument
            else .ok (fun i j : Fin 7 =>
              if h : (i : ℕ) * 7 + (j : ℕ) < I.length then I.get ⟨(i : ℕ) * 7 + (j : ℕ), h⟩
              else (1 : Mat7) i j)
        | some _ => .error Err.invalidArgument : Except Err Mat7) with
    | .error e => .error e
    | .ok st =>
      let Erest := getRealD c "Es" 1
      let gamma := (Ek + Erest) / Erest
      let beta := Real.sqrt (1 + 1 / gamma ^ 2)
      .ok { pos := pos, Ekinetic := Ek, sync_phase := fy, gamma := gamma,
            beta := beta, moment0 := m0, state := st, next_elem := 0 }

/-- `Moment2State::Moment2State(const Moment2State&, clone_tag)`: the
member-initializer list copies only `pos`, `Ekinetic`, `moment0` and
`state`; `sync_phase`, `gamma` and `beta` are absent from the list and
therefore left indeterminate (uninitialized doubles), modelled here as
explicit junk parameters.  `next_elem` is handled by the `StateBase`
clone constructor (modelled from the spec as a copy). -/
def Moment2State.clone (o : Moment2State) (sync0 gamma0 beta0 : ℝ) : Moment2State :=
  { pos := o.pos, Ekinetic := o.Ekinetic,
    sync_phase := sync0, gamma := gamma0, beta := beta0,
    moment0 := o.moment0, state := o.state, next_elem := o.next_elem }

/-- `Moment2ElementBase`: scalars, transfer matrices, misalignment pair,
and the two energy-cache keys (NaN modelled as `none`). -/
structure Moment2ElementBase where
  length : ℝ
  FSampLength : ℝ
  phase_factor : ℝ
  Erest : ℝ
  transfer : Mat7
  transfer_raw : Mat7
  misalign : Mat7
  misalign_inv : Mat7
  last_Kenergy_in : Option ℝ
  last_Kenergy_out : Option ℝ

/-- `Moment2ElementBase::Moment2ElementBase(const Config&)`: reads `L`
(default 0), `Frf` and `IonEs` (required), sets `misalign` to the
identity, inverts it into `misalign_inv`, seeds `transfer_raw` to the
identity and both cache keys to NaN.  The C++ leaves `transfer`
uninitialized (allocated but unset); its indeterminate initial contents
are modelled as the parameter `t0`. -/
def Moment2ElementBase.construct (c : Config) (t0 : Mat7) :
    Except Err Moment2ElementBase :=
  let length := getRealD c "L" 0
  match getReal c "Frf" with
  | .error e => .error e
  | .ok frf =>
    let FSampLength := C0 / frf * MtoMM
    let phase_factor := length * 2 * Real.pi / FSampLength
    match getReal c "IonEs" with
    | .error e => .error e
    | .ok Erest =>
      match inverse (1 : Mat7) with
      | .error e => .error e
      | .ok minv =>
        .ok { length := length, FSampLength := FSampLength,
              phase_factor := phase_factor, Erest := Erest,
              transfer := t0, transfer_raw := 1,
              misalign := 1, misalign_inv := minv,
              last_Kenergy_in := none, last_Kenergy_out := none }

/-- Cache-miss branch of `Moment2ElementBase::advance`: recompute the
energy-dependent longitudinal term of `transfer_raw`, compose
`transfer = misalign · transfer_raw · misalign_inv`, and set both cache
keys to the state's kinetic energy (passive element: no energy gain). -/
def Moment2ElementBase.recompute (e : Moment2ElementBase) (ST : Moment2State) :
    Moment2ElementBase :=
  if e.last_Kenergy_in ≠ some ST.Ekinetic then
    let tr := setEntry e.transfer_raw PS_S PS_PS
      (-2 * Real.pi / (e.FSampLength * e.Erest * (ST.beta * ST.gamma) ^ 3) * e.length)
    { e with transfer_raw := tr,
             transfer := e.misalign * tr * e.misalign_inv,
             last_Kenergy_in := some ST.Ekinetic,
             last_Kenergy_out := some ST.Ekinetic }
  else e

/-- Common tail of `advance`: advance position, set the kinetic energy to
`last_Kenergy_out`, accumulate the synchronous phase, apply the linear
map to `moment0` and the congruence transform to `state`.  Writing NaN
(`none`) into `Ekinetic` cannot be represented in `ℝ`; `getD` keeps the
old energy in that case, which is unreachable for elements whose two
cache keys are NaN only together (constructor and `advance` always set
them together). -/
def Moment2ElementBase.applyTail (e : Moment2ElementBase) (ST : Moment2State) :
    Moment2State :=
  { ST with
    pos := ST.pos + e.length,
    Ekinetic := e.last_Kenergy_out.getD ST.Ekinetic,
    sync_phase := ST.sync_phase + e.phase_factor / ST.beta,
    moment0 := e.transfer.mulVec ST.moment0,
    state := e.transfer * ST.state * e.transfer.transpose }

/-- `Moment2ElementBase::advance` (default algorithm of every passive
element): recompute-on-miss followed by the state update; the element is
mutated too (its cache), so the embedding returns both. -/
def Moment2ElementBase.advance (e : Moment2ElementBase) (ST : Moment2State) :
    Moment2ElementBase × Moment2State :=
  let e := Moment2ElementBase.recompute e ST
  (e, Moment2ElementBase.applyTail e ST)

/-- `Get2by2Matrix` of `moment2.cpp`: one-plane transport block for a
quadrupole, written into `M` at rows/columns `ind`, `ind+1`. -/
def Get2by2Matrix (L K : ℝ) (ind : Fin 7) (M : Mat7) : Mat7 :=
  if K > 0 then
    -- Focusing.
    let sqrtK := Real.sqrt K
    let psi := sqrtK * L
    let cs := Real.cos psi
    let sn := Real.sin psi
    let M := setEntry M ind ind cs
    let M := setEntry M (ind + 1) (ind + 1) cs
    let M := setEntry M ind (ind + 1) (if sqrtK ≠ 0 then sn / sqrtK else L)
    setEntry M (ind + 1) ind (if sqrtK ≠ 0 then -sqrtK * sn else 0)
  else
    -- Defocusing.
    let sqrtK := Real.sqrt (-K)
    let psi := sqrtK * L
    let cs := Real.cosh psi
    let sn := Real.sinh psi
    let M := setEntry M ind ind cs
    let M := setEntry M (ind + 1) (ind + 1) cs
    let M := setEntry M ind (ind + 1) (if sqrtK ≠ 0 then sn / sqrtK else L)
    setEntry M (ind + 1) ind (if sqrtK ≠ 0 then sqrtK * sn else 0)

/-- `ElementDrift` transfer matrix: identity with the two position←angle
entries set to the (already converted) length `L`. -/
def driftTRraw (L : ℝ) : Mat7 :=
  setEntry (setEntry (1 : Mat7) PS_X PS_PX L) PS_Y PS_PY L

/-- `ElementQuad` transfer matrix from converted length `L` and strength
`K`: horizontal plane with `+K`, then vertical plane with `-K`, over the
base identity. -/
def quadTRraw (L K : ℝ) : Mat7 :=
  Get2by2Matrix L (-K) PS_Y (Get2by2Matrix L K PS_X (1 : Mat7))

/-- `ElementSBend` transfer matrix from converted length `L`, bend angle
`phi` and strength `K`. -/
def sbendTRraw (L phi K : ℝ) : Mat7 :=
  let rho := L / phi
  let Kx := K + 1 / rho ^ 2
  let Ky := -K
  Get2by2Matrix L Ky PS_Y (Get2by2Matrix L Kx PS_X (1 : Mat7))

/-- `ElementSolenoid` transfer matrix from converted length `L` and
strength `K`, assignments in source order over the base identity. -/
def solTRraw (L K : ℝ) : Mat7 :=
  let C := Real.cos (K * L)
  let S := Real.sin (K * L)
  let M := (1 : Mat7)
  let M := setEntry M PS_X PS_X (C * C)
  let M := setEntry M PS_PX PS_PX (C * C)
  let M := setEntry M PS_Y PS_Y (C * C)
  let M := setEntry M PS_PY PS_PY (C * C)
  let M := setEntry M PS_X PS_PX (if K ≠ 0 then S * C / K else L)
  let M := setEntry M PS_X PS_Y (S * C)
  let M := setEntry M PS_X PS_PY (if K ≠ 0 then S * S / K else 0)
  let M := setEntry M PS_PX PS_X (-(K * S * C))
  let M := setEntry M PS_PX PS_Y (-(K * (S * S)))
  let M := setEntry M PS_PX PS_PY (S * C)
  let M := setEntry M PS_Y PS_X (-(S * C))
  let M := setEntry M PS_Y PS_PX (if K ≠ 0 then -(S * S / K) else 0)
  let M := setEntry M PS_Y PS_PY (if K ≠ 0 then S * C / K else L)
  let M := setEntry M PS_PY PS_X (K * (S * S))
  let M := setEntry M PS_PY PS_PX (-(S * C))
  setEntry M PS_PY PS_Y (-(K * S * C))

/-- `ElementSource` constructor: base element plus a held initial state
built from the same configuration. -/
def constructSource (c : Config) (t0 : Mat7) :
    Except Err (Moment2ElementBase × Moment2State) :=
  match Moment2ElementBase.construct c t0 with
  | .error e => .error e
  | .ok eb =>
    match Moment2State.construct c with
    | .error e => .error e
    | .ok istate => .ok (eb, istate)

/-- `ElementMark` constructor: base element with `length` and
`phase_factor` reset to zero. -/
def constructMark (c : Config) (t0 : Mat7) : Except Err Moment2ElementBase :=
  match Moment2ElementBase.construct c t0 with
  | .error e => .error e
  | .ok eb => .ok { eb with length := 0, phase_factor := 0 }

/-- `ElementDrift` constructor. -/
def constructDrift (c : Config) (t0 : Mat7) : Except Err Moment2ElementBase :=
  match Moment2ElementBase.construct c t0 with
  | .error e => .error e
  | .ok eb => .ok { eb with transfer_raw := driftTRraw (eb.length * MtoMM) }

/-- `ElementSBend` constructor: requires `L` and `phi`, strength `K`
defaults to 0 and is converted from 1/m² to 1/mm². -/
def constructSBend (c : Config) (t0 : Mat7) : Except Err Moment2ElementBase :=
  match Moment2ElementBase.construct c t0 with
  | .error e => .error e
  | .ok eb =>
    match getReal c "L" with
    | .error e => .error e
    | .ok Lr =>
      match getReal c "phi" with
      | .error e => .error e
      | .ok phi =>
        .ok { eb with transfer_raw :=
          (sbendTRraw (Lr * MtoMM) phi (getRealD c "K" 0 / MtoMM ^ 2)) }

/-- `ElementQuad` constructor: requires `L`, strength `K` defaults to 0
and is converted from 1/m² to 1/mm². -/
def constructQuad (c : Config) (t0 : Mat7) : Except Err Moment2ElementBase :=
  match Moment2ElementBase.construct c t0 with
  | .error e => .error e
  | .ok eb =>
    match getReal c "L" with
    | .error e => .error e
    | .ok Lr =>
      .ok { eb with transfer_raw :=
        (quadTRraw (Lr * MtoMM) (getRealD c "K" 0 / MtoMM ^ 2)) }

/-- `ElementSolenoid` constructor: requires `L`, strength `K` defaults to
0 and is converted from 1/m to 1/mm. -/
def constructSolenoid (c : Config) (t0 : Mat7) : Except Err Moment2ElementBase :=
  match Moment2ElementBase.construct c t0 with
  | .error e => .error e
  | .ok eb =>
    match getReal c "L" with
    | .error e => .error e
    | .ok Lr =>
      .ok { eb with transfer_raw :=
        (solTRraw (Lr * MtoMM) (getRealD c "K" 0 / MtoMM)) }

/-- `ElementRFCavity` constructor: requires `cavtype` (string) and `L`;
sets the two position←angle entries like a drift. -/
def constructRFCavity (c : Config) (t0 : Mat7) : Except Err Moment2ElementBase :=
  match Moment2ElementBase.construct c t0 with
  | .error e => .error e
  | .ok eb =>
    match getStr c "cavtype" with
    | .error e => .error e
    | .ok _ =>
      match getReal c "L" with
      | .error e => .error e
      | .ok Lr =>
        .ok { eb with transfer_raw :=
          (setEntry (setEntry eb.transfer_raw PS_X PS_PX (Lr * MtoMM))
            PS_Y PS_PY (Lr * MtoMM)) }

/-- `ElementStripper` constructor: base element, identity transfer. -/
def constructStripper (c : Config) (t0 : Mat7) : Except Err Moment2ElementBase :=
  match Moment2ElementBase.construct c t0 with
  | .error e => .error e
  | .ok eb => .ok eb

/-- `ElementEDipole` constructor: base element, identity transfer. -/
def constructEDipole (c : Config) (t0 : Mat7) : Except Err Moment2ElementBase :=
  match Moment2ElementBase.construct c t0 with
  | .error e => .error e
  | .ok eb => .ok eb

/-- `ElementGeneric` constructor: requires the flattened `transfer` list,
fails with `invalid_argument` when longer than N², otherwise copies it
row-major over the identity-seeded `transfer_raw`. -/
def constructGeneric (c : Config) (t0 : Mat7) : Except Err Moment2ElementBase :=
  match Moment2ElementBase.construct c t0 with
  | .error e => .error e
  | .ok eb =>
    match getVec c "transfer" with
    | .error e => .error e
    | .ok I =>
      if I.length > 49 then .error .invalidArgument
      else .ok { eb with transfer_raw := fun i j : Fin 7 =>
        if h : (i : ℕ) * 7 + (j : ℕ) < I.length then I.get ⟨(i : ℕ) * 7 + (j : ℕ), h⟩
        else eb.transfer_raw i j }

/-- Cache-miss branch of `ElementRFCavity::advance`: same longitudinal
recompute, but `transfer` is set to `transfer_raw` directly (no
misalignment composition) and `last_Kenergy_out` to the cached input
energy plus 1. -/
def ElementRFCavity.recompute (e : Moment2ElementBase) (ST : Moment2State) :
    Moment2ElementBase :=
  if e.last_Kenergy_in ≠ some ST.Ekinetic then
    let tr := setEntry e.transfer_raw PS_S PS_PS
      (-2 * Real.pi / (e.FSampLength * e.Erest * (ST.beta * ST.gamma) ^ 3) * e.length)
    { e with transfer_raw := tr,
             transfer := tr,
             last_Kenergy_in := some ST.Ekinetic,
             last_Kenergy_out := some (ST.Ekinetic + 1) }
  else e

/-- `ElementRFCavity::advance`: the override, sharing the same state
update tail as the default algorithm (the C++ repeats the code
verbatim). -/
def ElementRFCavity.advance (e : Moment2ElementBase) (ST : Moment2State) :
    Moment2ElementBase × Moment2State :=
  let e := ElementRFCavity.recompute e ST
  (e, Moment2ElementBase.applyTail e ST)

/-- The relativistic-consistency predicate of the spec: `gamma` and
`beta` are the factors derived from the current kinetic energy and the
rest energy `Er` by the construction formulas of `Moment2State`
(`gamma = (Ekinetic+Erest)/Erest`, `beta = sqrt(1+1/gamma^2)`). -/
def relativisticConsistent (Er : ℝ) (s : Moment2State) : Prop :=
  s.gamma = (s.Ekinetic + Er) / Er ∧ s.beta = Real.sqrt (1 + 1 / s.gamma ^ 2)

/-- A concrete freshly-constructed element (cache keys NaN), used to
instantiate universally quantified theorems. -/
def sampleElem : Moment2ElementBase :=
  { length := 0, FSampLength := 1, phase_factor := 0, Erest := 1,
    transfer := 1, transfer_raw := 1, misalign := 1, misalign_inv := 1,
    last_Kenergy_in := none, last_Kenergy_out := none }

/-- A concrete state at rest energy 1, kinetic energy 0. -/
def sampleState : Moment2State :=
  { pos := 0, Ekinetic := 0, sync_phase := 0, gamma := 1, beta := 1,
    moment0 := fun _ => 0, state := 1, next_elem := 0 }

/-- The `sampleState` kinematics with the relativistically consistent
`beta` for rest energy 1 and kinetic energy 0 (the code's own formula
gives `beta = sqrt(1+1/1) = sqrt 2`). -/
def cavState : Moment2State :=
  { sampleState with beta := Real.sqrt 2 }

/-- A concrete state whose phase and relativistic scalars are nonzero,
exhibiting what the clone constructor drops. -/
def cloneSrc : Moment2State :=
  { pos := 5, Ekinetic := 7, sync_phase := 1, gamma := 2, beta := 3,
    moment0 := fun _ => 0, state := 1, next_elem := 0 }

/-- The empty configuration. -/
def emptyCfg : Config := []

/-- A configuration carrying the two required element keys. -/
def cfg0 : Config := [("Frf", ConfigValue.real 1), ("IonEs", ConfigValue.real 1)]

/-- Embedding of the transverse phase-space indices into the full basis
(the 4×4 transverse block). -/
def castLE4 : Fin 4 → Fin 7 := Fin.castLE (by omega)

/-- The property, shared by every element type, that construction reads
the configuration keys `Frf` and `IonEs` with no default: absence of
`Frf`, or absence of `IonEs` while `Frf` holds a double, fails with
`key_error`. -/
def RequiresFrfIonEs (ctor : Config → Mat7 → Except Err Moment2ElementBase) : Prop :=
  ∀ c t0,
    (getAny c "Frf" = none → ctor c t0 = .error Err.keyError) ∧
    (∀ v, getAny c "Frf" = some (ConfigValue.real v) → getAny c "IonEs" = none →
      ctor c t0 = .error Err.keyError)

end

/-! Helper lemmas shared by several claims. -/

theorem recompute_hit {e : Moment2ElementBase} {s : Moment2State}
    (h : e.last_Kenergy_in = some s.Ekinetic) :
    Moment2ElementBase.recompute e s = e := by
  unfold Moment2ElementBase.recompute
  simp [h]

theorem recompute_length (e : Moment2ElementBase) (s : Moment2State) :
    (Moment2ElementBase.recompute e s).length = e.length := by
  unfold Moment2ElementBase.recompute
  split <;> rfl

theorem recompute_phase_factor (e : Moment2ElementBase) (s : Moment2State) :
    (Moment2ElementBase.recompute e s).phase_factor = e.phase_factor := by
  unfold Moment2ElementBase.recompute
  split <;> rfl

theorem recompute_misalign (e : Moment2ElementBase) (s : Moment2State) :
    (Moment2ElementBase.recompute e s).misalign = e.misalign ∧
    (Moment2ElementBase.recompute e s).misalign_inv = e.misalign_inv := by
  unfold Moment2ElementBase.recompute
  split <;> exact ⟨rfl, rfl⟩

theorem recompute_out_isSome {e : Moment2ElementBase} {s : Moment2State}
    (hpair : e.last_Kenergy_out = none → e.last_Kenergy_in = none) :
    ∃ v, (Moment2ElementBase.recompute e s).last_Kenergy_out = some v := by
  by_cases h : e.last_Kenergy_in = some s.Ekinetic
  · rw [recompute_hit h]
    cases ho : e.last_Kenergy_out with
    | none => rw [hpair ho] at h; cases h
    | some v => exact ⟨v, rfl⟩
  · refine ⟨s.Ekinetic, ?_⟩
    unfold Moment2ElementBase.recompute
    simp [h]

/-- Claim C1: for every state and every passive element whose advance
follows the default algorithm, `advance` adds the element's length to
the position, sets the kinetic energy to the (updated) element's
`last_Kenergy_out`, adds `phase_factor / beta` to the synchronous
phase, maps `moment0` through the effective transfer, replaces the
second-moment matrix by the congruence `transfer · state · transferᵗ`,
and changes no other state field (`gamma`, `beta`, `next_elem` are
untouched).  The hypothesis records that the two cache keys are NaN
only together, which holds for every element produced by the
constructor or a previous advance. -/
theorem advance_default_updates (e : Moment2ElementBase) (s : Moment2State)
    (hpair : e.last_Kenergy_out = none → e.last_Kenergy_in = none) :
    (Moment2ElementBase.advance e s).2.pos = s.pos + e.length ∧
    some (Moment2ElementBase.advance e s).2.Ekinetic
      = (Moment2ElementBase.advance e s).1.last_Kenergy_out ∧
    (Moment2ElementBase.advance e s).2.sync_phase
      = s.sync_phase + e.phase_factor / s.beta ∧
    (Moment2ElementBase.advance e s).2.moment0
      = (Moment2ElementBase.advance e s).1.transfer.mulVec s.moment0 ∧
    (Moment2ElementBase.advance e s).2.state
      = (Moment2ElementBase.advance e s).1.transfer * s.state
          * (Moment2ElementBase.advance e s).1.transfer.transpose ∧
    (Moment2ElementBase.advance e s).2.gamma = s.gamma ∧
    (Moment2ElementBase.advance e s).2.beta = s.beta ∧
    (Moment2ElementBase.advance e s).2.next_elem = s.next_elem := by
  obtain ⟨v, hv⟩ := recompute_out_isSome (s := s) hpair
  refine ⟨?_, ?_, ?_, rfl, rfl, rfl, rfl, rfl⟩
  · show (Moment2ElementBase.applyTail _ s).pos = _
    rw [Moment2ElementBase.applyTail, recompute_length]
  · show some ((Moment2ElementBase.applyTail _ s).Ekinetic) = _
    rw [Moment2ElementBase.applyTail]
    simp [hv]
    exact hv.symm
  · show (Moment2ElementBase.applyTail _ s).sync_phase = _
    rw [Moment2ElementBase.applyTail, recompute_phase_factor]

/-- Witness for C1 at the concrete fresh element and state. -/
theorem advance_default_updates_witness :
    (sampleElem.last_Kenergy_out = none → sampleElem.last_Kenergy_in = none) ∧
    ((Moment2ElementBase.advance sampleElem sampleState).2.pos
        = sampleState.pos + sampleElem.length ∧
     some (Moment2ElementBase.advance sampleElem sampleState).2.Ekinetic
        = (Moment2ElementBase.advance sampleElem sampleState).1.last_Kenergy_out ∧
     (Moment2ElementBase.advance sampleElem sampleState).2.sync_phase
        = sampleState.sync_phase + sampleElem.phase_factor / sampleState.beta ∧
     (Moment2ElementBase.advance sampleElem sampleState).2.moment0
        = (Moment2ElementBase.advance sampleElem sampleState).1.transfer.mulVec
            sampleState.moment0 ∧
     (Moment2ElementBase.advance sampleElem sampleState).2.state
        = (Moment2ElementBase.advance sampleElem sampleState).1.transfer
            * sampleState.state
            * (Moment2ElementBase.advance sampleElem sampleState).1.transfer.transpose ∧
     (Moment2ElementBase.advance sampleElem sampleState).2.gamma = sampleState.gamma ∧
     (Moment2ElementBase.advance sampleElem sampleState).2.beta = sampleState.beta ∧
     (Moment2ElementBase.advance sampleElem sampleState).2.next_elem
        = sampleState.next_elem) :=
  ⟨fun _ => rfl, advance_default_updates sampleElem sampleState (fun _ => rfl)⟩

/-- Claim C2, counterexample: the RF-cavity advance raises the kinetic
energy by 1 but does not recompute `gamma`/`beta`; starting from the
relativistically consistent state at rest energy 1 and kinetic energy 0,
the advanced state's kinetic energy changed yet its `gamma` no longer
satisfies `gamma = (Ekinetic+Erest)/Erest`. -/
theorem rf_advance_leaves_gamma_stale :
    relativisticConsistent 1 cavState ∧
    (ElementRFCavity.advance sampleElem cavState).2.Ekinetic ≠ cavState.Ekinetic ∧
    ¬ relativisticConsistent 1 (ElementRFCavity.advance sampleElem cavState).2 := by
  have hadv2 : (ElementRFCavity.advance sampleElem cavState).2.Ekinetic = 1 := by
    simp [ElementRFCavity.advance, ElementRFCavity.recompute,
      Moment2ElementBase.applyTail, sampleElem, cavState, sampleState]
  have hadvg : (ElementRFCavity.advance sampleElem cavState).2.gamma = 1 := by
    simp [ElementRFCavity.advance, ElementRFCavity.recompute,
      Moment2ElementBase.applyTail, sampleElem, cavState, sampleState]
  refine ⟨⟨?_, ?_⟩, ?_, ?_⟩
  · simp [cavState, sampleState]
  · simp [cavState, sampleState]
    norm_num
  · rw [hadv2]
    simp [cavState, sampleState]
  · rintro ⟨hg, -⟩
    rw [hadvg, hadv2] at hg
    norm_num at hg

/-- Claim C2, amended: `advance` never recomputes `beta` or `gamma`;
both the default algorithm and the RF-cavity override leave them
exactly as they were, so after the energy-changing RF-cavity advance
they retain their stale pre-advance values. -/
theorem advance_never_recomputes_beta_gamma (e : Moment2ElementBase) (s : Moment2State) :
    ((Moment2ElementBase.advance e s).2.gamma = s.gamma ∧
     (Moment2ElementBase.advance e s).2.beta = s.beta) ∧
    ((ElementRFCavity.advance e s).2.gamma = s.gamma ∧
     (ElementRFCavity.advance e s).2.beta = s.beta) :=
  ⟨⟨rfl, rfl⟩, ⟨rfl, rfl⟩⟩

/-- Claim C6: if the second-moment matrix is symmetric before the
default advance, it is symmetric after (the congruence update
`transfer · state · transferᵗ` preserves symmetry in exact
arithmetic). -/
theorem advance_preserves_symmetry (e : Moment2ElementBase) (s : Moment2State)
    (h : s.state.IsSymm) :
    ((Moment2ElementBase.advance e s).2.state).IsSymm := by
  show (((Moment2ElementBase.recompute e s).transfer * s.state
      * (Moment2ElementBase.recompute e s).transfer.transpose)).IsSymm
  unfold Matrix.IsSymm
  rw [Matrix.transpose_mul, Matrix.transpose_mul, Matrix.transpose_transpose,
    h.eq, Matrix.mul_assoc]

/-- Witness for C6 at the concrete identity second-moment matrix. -/
theorem advance_preserves_symmetry_witness :
    sampleState.state.IsSymm ∧
    ((Moment2ElementBase.advance sampleElem sampleState).2.state).IsSymm :=
  ⟨Matrix.isSymm_one, advance_preserves_symmetry sampleElem sampleState Matrix.isSymm_one⟩

/-- Claim C5: under the invariant that the two cache keys are equal
(true after construction, where both are NaN, and after every advance,
which writes them together), the first `advance` call at a given kinetic
energy sets both cache keys to that energy and leaves the state's
energy unchanged, and a second consecutive call is a pure cache hit:
it leaves `transfer`, `transfer_raw` and both cache keys unchanged. -/
theorem advance_cache_idempotent (e : Moment2ElementBase) (s : Moment2State)
    (h : e.last_Kenergy_in = e.last_Kenergy_out) :
    (Moment2ElementBase.advance e s).1.last_Kenergy_in = some s.Ekinetic ∧
    (Moment2ElementBase.advance e s).1.last_Kenergy_out = some s.Ekinetic ∧
    (Moment2ElementBase.advance e s).2.Ekinetic = s.Ekinetic ∧
    (Moment2ElementBase.advance (Moment2ElementBase.advance e s).1
        (Moment2ElementBase.advance e s).2).1.transfer
      = (Moment2ElementBase.advance e s).1.transfer ∧
    (Moment2ElementBase.advance (Moment2ElementBase.advance e s).1
        (Moment2ElementBase.advance e s).2).1.transfer_raw
      = (Moment2ElementBase.advance e s).1.transfer_raw ∧
    (Moment2ElementBase.advance (Moment2ElementBase.advance e s).1
        (Moment2ElementBase.advance e s).2).1.last_Kenergy_in
      = (Moment2ElementBase.advance e s).1.last_Kenergy_in ∧
    (Moment2ElementBase.advance (Moment2ElementBase.advance e s).1
        (Moment2ElementBase.advance e s).2).1.last_Kenergy_out
      = (Moment2ElementBase.advance e s).1.last_Kenergy_out := by
  have h1 : (Moment2ElementBase.advance e s).1.last_Kenergy_in = some s.Ekinetic ∧
      (Moment2ElementBase.advance e s).1.last_Kenergy_out = some s.Ekinetic := by
    by_cases hm : e.last_Kenergy_in = some s.Ekinetic
    · constructor
      · show (Moment2ElementBase.recompute e s).last_Kenergy_in = _
        rw [recompute_hit hm]
        exact hm
      · show (Moment2ElementBase.recompute e s).last_Kenergy_out = _
        rw [recompute_hit hm, ← h]
        exact hm
    · constructor
      · show (Moment2ElementBase.recompute e s).last_Kenergy_in = _
        unfold Moment2ElementBase.recompute
        simp [hm]
      · show (Moment2ElementBase.recompute e s).last_Kenergy_out = _
        unfold Moment2ElementBase.recompute
        simp [hm]
  have h3 : (Moment2ElementBase.advance e s).2.Ekinetic = s.Ekinetic := by
    show (Moment2ElementBase.applyTail _ _).Ekinetic = _
    rw [Moment2ElementBase.applyTail]
    show ((Moment2ElementBase.recompute e s).last_Kenergy_out).getD s.Ekinetic = _
    rw [show (Moment2ElementBase.recompute e s).last_Kenergy_out = some s.Ekinetic
      from h1.2]
    rfl
  have hhit : (Moment2ElementBase.advance e s).1.last_Kenergy_in
      = some (Moment2ElementBase.advance e s).2.Ekinetic := by
    rw [h1.1, h3]
  have h4 : Moment2ElementBase.recompute (Moment2ElementBase.advance e s).1
      (Moment2ElementBase.advance e s).2 = (Moment2ElementBase.advance e s).1 :=
    recompute_hit hhit
  refine ⟨h1.1, h1.2, h3, ?_, ?_, ?_, ?_⟩
  · show (Moment2ElementBase.recompute _ _).transfer = _
    rw [h4]
  · show (Moment2ElementBase.recompute _ _).transfer_raw = _
    rw [h4]
  · show (Moment2ElementBase.recompute _ _).last_Kenergy_in = _
    rw [h4]
  · show (Moment2ElementBase.recompute _ _).last_Kenergy_out = _
    rw [h4]

/-- Witness for C5 at the concrete fresh element (both keys NaN). -/
theorem advance_cache_idempotent_witness :
    sampleElem.last_Kenergy_in = sampleElem.last_Kenergy_out ∧
    ((Moment2ElementBase.advance sampleElem sampleState).1.last_Kenergy_in
        = some sampleState.Ekinetic ∧
     (Moment2ElementBase.advance sampleElem sampleState).1.last_Kenergy_out
        = some sampleState.Ekinetic ∧
     (Moment2ElementBase.advance sampleElem sampleState).2.Ekinetic
        = sampleState.Ekinetic ∧
     (Moment2ElementBase.advance (Moment2ElementBase.advance sampleElem sampleState).1
         (Moment2ElementBase.advance sampleElem sampleState).2).1.transfer
       = (Moment2ElementBase.advance sampleElem sampleState).1.transfer ∧
     (Moment2ElementBase.advance (Moment2ElementBase.advance sampleElem sampleState).1
         (Moment2ElementBase.advance sampleElem sampleState).2).1.transfer_raw
       = (Moment2ElementBase.advance sampleElem sampleState).1.transfer_raw ∧
     (Moment2ElementBase.advance (Moment2ElementBase.advance sampleElem sampleState).1
         (Moment2ElementBase.advance sampleElem sampleState).2).1.last_Kenergy_in
       = (Moment2ElementBase.advance sampleElem sampleState).1.last_Kenergy_in ∧
     (Moment2ElementBase.advance (Moment2ElementBase.advance sampleElem sampleState).1
         (Moment2ElementBase.advance sampleElem sampleState).2).1.last_Kenergy_out
       = (Moment2ElementBase.advance sampleElem sampleState).1.last_Kenergy_out) :=
  ⟨rfl, advance_cache_idempotent sampleElem sampleState rfl⟩

/-- Claim C4: the RF-cavity advance, on an energy-cache miss, sets the
effective transfer to the freshly recomputed `transfer_raw` directly
(no misalignment similarity composition) and caches
`last_Kenergy_out = last_Kenergy_in + 1`; consequently, under the
cavity's own cache invariant (out = in + 1 whenever the input key is a
number, vacuously true for the freshly constructed cavity), every pass
leaves the state's kinetic energy equal to the cached input energy
plus exactly 1. -/
theorem rf_advance_energy_gain (e : Moment2ElementBase) (s : Moment2State)
    (hInv : ∀ v, e.last_Kenergy_in = some v → e.last_Kenergy_out = some (v + 1)) :
    (e.last_Kenergy_in ≠ some s.Ekinetic →
      ((ElementRFCavity.advance e s).1.transfer
          = (ElementRFCavity.advance e s).1.transfer_raw ∧
       (ElementRFCavity.advance e s).1.last_Kenergy_in = some s.Ekinetic ∧
       (ElementRFCavity.advance e s).1.last_Kenergy_out = some (s.Ekinetic + 1))) ∧
    (∃ E, (ElementRFCavity.advance e s).1.last_Kenergy_in = some E ∧
          (ElementRFCavity.advance e s).2.Ekinetic = E + 1) := by
  by_cases h : e.last_Kenergy_in = some s.Ekinetic
  · have hout := hInv s.Ekinetic h
    have hre : ElementRFCavity.recompute e s = e := by
      unfold ElementRFCavity.recompute
      simp [h]
    constructor
    · intro hc
      exact absurd h hc
    · refine ⟨s.Ekinetic, ?_, ?_⟩
      · show (ElementRFCavity.recompute e s).last_Kenergy_in = _
        rw [hre]
        exact h
      · show (Moment2ElementBase.applyTail _ _).Ekinetic = _
        rw [Moment2ElementBase.applyTail]
        show ((ElementRFCavity.recompute e s).last_Kenergy_out).getD s.Ekinetic = _
        rw [hre, hout]
        rfl
  · have hks : (ElementRFCavity.recompute e s).last_Kenergy_in = some s.Ekinetic ∧
        (ElementRFCavity.recompute e s).last_Kenergy_out = some (s.Ekinetic + 1) ∧
        (ElementRFCavity.recompute e s).transfer
          = (ElementRFCavity.recompute e s).transfer_raw := by
      unfold ElementRFCavity.recompute
      simp [h]
    constructor
    · intro _
      exact ⟨hks.2.2, hks.1, hks.2.1⟩
    · refine ⟨s.Ekinetic, hks.1, ?_⟩
      show (Moment2ElementBase.applyTail _ _).Ekinetic = _
      rw [Moment2ElementBase.applyTail]
      show ((ElementRFCavity.recompute e s).last_Kenergy_out).getD s.Ekinetic = _
      rw [hks.2.1]
      rfl

/-- Witness for C4 at the freshly constructed cavity (cache keys NaN),
where the invariant hypothesis is vacuous. -/
theorem rf_advance_energy_gain_witness :
    ((sampleElem.last_Kenergy_in ≠ some sampleState.Ekinetic →
      ((ElementRFCavity.advance sampleElem sampleState).1.transfer
          = (ElementRFCavity.advance sampleElem sampleState).1.transfer_raw ∧
       (ElementRFCavity.advance sampleElem sampleState).1.last_Kenergy_in
          = some sampleState.Ekinetic ∧
       (ElementRFCavity.advance sampleElem sampleState).1.last_Kenergy_out
          = some (sampleState.Ekinetic + 1))) ∧
     (∃ E, (ElementRFCavity.advance sampleElem sampleState).1.last_Kenergy_in = some E ∧
           (ElementRFCavity.advance sampleElem sampleState).2.Ekinetic = E + 1)) :=
  rf_advance_energy_gain sampleElem sampleState (fun _ h => Option.noConfusion h)

/-- Claim C8 (code evaluation at the failing input): the clone
constructor copies `pos`, `Ekinetic`, `moment0` and `state` but does
not copy `sync_phase`, `gamma` or `beta` — those members are missing
from the initializer list and take indeterminate values (here the junk
parameters 0), so a clone of a state with `sync_phase = 1`, `gamma = 2`,
`beta = 3` does not preserve them. -/
theorem clone_omits_phase_and_relativistic_fields :
    (cloneSrc.clone 0 0 0).pos = cloneSrc.pos ∧
    (cloneSrc.clone 0 0 0).Ekinetic = cloneSrc.Ekinetic ∧
    (cloneSrc.clone 0 0 0).moment0 = cloneSrc.moment0 ∧
    (cloneSrc.clone 0 0 0).state = cloneSrc.state ∧
    (cloneSrc.clone 0 0 0).sync_phase = 0 ∧ cloneSrc.sync_phase = 1 ∧
    (cloneSrc.clone 0 0 0).gamma = 0 ∧ cloneSrc.gamma = 2 ∧
    (cloneSrc.clone 0 0 0).beta = 0 ∧ cloneSrc.beta = 3 ∧
    (cloneSrc.clone 0 0 0).sync_phase ≠ cloneSrc.sync_phase := by
  refine ⟨rfl, rfl, rfl, rfl, rfl, rfl, rfl, rfl, rfl, rfl, ?_⟩
  show (0 : ℝ) ≠ 1
  norm_num

/-- Claim C3: for every quadrupole configuration with `K = 0` (the value
the constructor reads, before the 1/m² → 1/mm² conversion) and length
`Lr` metres, the constructed transfer matrix equals that of a drift of
the same length: the shared focus/defocus routine degenerates exactly
to the drift limit at `K = 0`. -/
theorem quad_K0_equals_drift (Lr : ℝ) :
    quadTRraw (Lr * MtoMM) (0 / MtoMM ^ 2) = driftTRraw (Lr * MtoMM) := by
  have h0 : (0 : ℝ) / MtoMM ^ 2 = 0 := by
    norm_num
  rw [h0]
  have hG : ∀ (ind : Fin 7) (M : Mat7), Get2by2Matrix (Lr * MtoMM) 0 ind M
      = setEntry (setEntry (setEntry (setEntry M ind ind 1) (ind + 1) (ind + 1) 1)
          ind (ind + 1) (Lr * MtoMM)) (ind + 1) ind 0 := by
    intro ind M
    unfold Get2by2Matrix
    rw [if_neg (lt_irrefl 0), neg_zero, Real.sqrt_zero]
    simp [Real.cosh_zero, Real.sinh_zero]
  rw [quadTRraw, neg_zero, hG, hG, driftTRraw,
    show PS_X + 1 = PS_PX from by decide, show PS_Y + 1 = PS_PY from by decide]
  funext a b
  fin_cases a <;> fin_cases b <;>
    simp [setEntry, PS_X, PS_PX, PS_Y, PS_PY, Matrix.one_apply]

/-- Claim C7: for every solenoid configuration with `K = 0` (the value
the constructor reads, before the 1/m → 1/mm conversion) and length
`Lr` metres, the transverse 4×4 block of the constructed transfer
matrix equals the drift block: ones on the diagonal, the
position←angle entry of each transverse plane equal to the converted
length, and every cross-plane coupling entry zero. -/
theorem solenoid_K0_transverse_equals_drift (Lr : ℝ) :
    (solTRraw (Lr * MtoMM) (0 / MtoMM)).submatrix castLE4 castLE4
      = (driftTRraw (Lr * MtoMM)).submatrix castLE4 castLE4 := by
  have h0 : (0 : ℝ) / MtoMM = 0 := by
    norm_num
  rw [h0]
  have hC : Real.cos (0 * (Lr * MtoMM)) = 1 := by
    rw [zero_mul, Real.cos_zero]
  have hS : Real.sin (0 * (Lr * MtoMM)) = 0 := by
    rw [zero_mul, Real.sin_zero]
  funext a b
  fin_cases a <;> fin_cases b <;>
    simp [solTRraw, driftTRraw, setEntry, Matrix.submatrix_apply, castLE4,
      PS_X, PS_PX, PS_Y, PS_PY, hC, hS, Matrix.one_apply] <;>
    rfl

theorem inverse_one : inverse (1 : Mat7) = .ok 1 := by
  unfold inverse
  rw [Matrix.det_one, if_neg one_ne_zero, inv_one]

theorem getReal_error_kinds (c : Config) (s : String) (err : Err)
    (h : getReal c s = .error err) : err = Err.keyError ∨ err = Err.typeMismatch := by
  unfold getReal at h
  split at h
  · cases h
    exact Or.inl rfl
  · exact Except.noConfusion h
  · cases h
    exact Or.inr rfl

/-- Claim C9: the misalignment matrix is the identity for the whole
lifetime of every element (the constructor hardcodes it and `advance`
never writes it), its inverse is therefore the identity and the
construction-time LU inversion can never fail, and whenever the default
advance recomputes the effective transfer (and from then on) it equals
`transfer_raw`. -/
theorem misalign_always_identity :
    (∀ c t0, Moment2ElementBase.construct c t0 ≠ .error Err.singular) ∧
    (∀ c t0 e, Moment2ElementBase.construct c t0 = .ok e →
      e.misalign = 1 ∧ e.misalign_inv = 1) ∧
    (∀ e s, (Moment2ElementBase.advance e s).1.misalign = e.misalign ∧
      (Moment2ElementBase.advance e s).1.misalign_inv = e.misalign_inv) ∧
    (∀ e s, e.misalign = 1 → e.misalign_inv = 1 →
      (e.transfer = e.transfer_raw ∨ e.last_Kenergy_in ≠ some s.Ekinetic) →
      (Moment2ElementBase.advance e s).1.transfer
        = (Moment2ElementBase.advance e s).1.transfer_raw) := by
  refine ⟨?_, ?_, ?_, ?_⟩
  · intro c t0 h
    unfold Moment2ElementBase.construct at h
    cases h1 : getReal c "Frf" with
    | error err =>
      rcases getReal_error_kinds c "Frf" err h1 with h2 | h2 <;>
        (subst h2; simp [h1] at h)
    | ok frf =>
      cases h2 : getReal c "IonEs" with
      | error err =>
        rcases getReal_error_kinds c "IonEs" err h2 with h3 | h3 <;>
          (subst h3; simp [h1, h2] at h)
      | ok Erest =>
        simp [h1, h2, inverse_one] at h
  · intro c t0 e h
    unfold Moment2ElementBase.construct at h
    cases h1 : getReal c "Frf" with
    | error err => simp [h1] at h
    | ok frf =>
      cases h2 : getReal c "IonEs" with
      | error err => simp [h1, h2] at h
      | ok Erest =>
        simp [h1, h2, inverse_one] at h
        rw [← h]
        exact ⟨rfl, rfl⟩
  · intro e s
    exact recompute_misalign e s
  · intro e s h1 h2 h3
    by_cases hm : e.last_Kenergy_in = some s.Ekinetic
    · show (Moment2ElementBase.recompute e s).transfer
        = (Moment2ElementBase.recompute e s).transfer_raw
      rw [recompute_hit hm]
      rcases h3 with h3 | h3
      · exact h3
      · exact absurd hm h3
    · show (Moment2ElementBase.recompute e s).transfer
        = (Moment2ElementBase.recompute e s).transfer_raw
      unfold Moment2ElementBase.recompute
      simp [hm, h1, h2]

/-- Witness for C9 at a concrete configuration and a concrete fresh
element. -/
theorem misalign_always_identity_witness :
    Moment2ElementBase.construct cfg0 1 ≠ .error Err.singular ∧
    (Moment2ElementBase.advance sampleElem sampleState).1.transfer
      = (Moment2ElementBase.advance sampleElem sampleState).1.transfer_raw :=
  ⟨misalign_always_identity.1 cfg0 1,
   misalign_always_identity.2.2.2 sampleElem sampleState rfl rfl
     (Or.inr (by simp [sampleElem, sampleState]))⟩

theorem base_requires_Frf_IonEs : RequiresFrfIonEs Moment2ElementBase.construct := by
  intro c t0
  constructor
  · intro h
    have h1 : getReal c "Frf" = .error Err.keyError := by
      unfold getReal
      rw [h]
    simp [Moment2ElementBase.construct, h1]
  · intro v hv hI
    have h1 : getReal c "Frf" = .ok v := by
      unfold getReal
      rw [hv]
    have h2 : getReal c "IonEs" = .error Err.keyError := by
      unfold getReal
      rw [hI]
    simp [Moment2ElementBase.construct, h1, h2]

theorem requires_of_error_propagation
    (f : Config → Mat7 → Except Err Moment2ElementBase)
    (hf : ∀ c t0 err, Moment2ElementBase.construct c t0 = .error err →
      f c t0 = .error err) :
    RequiresFrfIonEs f := by
  intro c t0
  exact ⟨fun h => hf c t0 _ ((base_requires_Frf_IonEs c t0).1 h),
    fun v hv hI => hf c t0 _ ((base_requires_Frf_IonEs c t0).2 v hv hI)⟩

/-- Claim C10: construction of every element type — including the
zero-length marker and stripper — reads `Frf` and `IonEs` with no
default (in the shared base constructor, which runs first), and
therefore fails with `key_error` when `Frf` is absent, or when `Frf`
holds a double but `IonEs` is absent. -/
theorem all_elements_require_Frf_IonEs :
    RequiresFrfIonEs constructMark ∧
    RequiresFrfIonEs constructDrift ∧
    RequiresFrfIonEs constructSBend ∧
    RequiresFrfIonEs constructQuad ∧
    RequiresFrfIonEs constructSolenoid ∧
    RequiresFrfIonEs constructRFCavity ∧
    RequiresFrfIonEs constructStripper ∧
    RequiresFrfIonEs constructEDipole ∧
    RequiresFrfIonEs constructGeneric ∧
    (∀ c t0, (getAny c "Frf" = none → constructSource c t0 = .error Err.keyError) ∧
      (∀ v, getAny c "Frf" = some (ConfigValue.real v) → getAny c "IonEs" = none →
        constructSource c t0 = .error Err.keyError)) := by
  refine ⟨?_, ?_, ?_, ?_, ?_, ?_, ?_, ?_, ?_, ?_⟩
  · exact requires_of_error_propagation _ (fun c t0 err h => by simp [constructMark, h])
  · exact requires_of_error_propagation _ (fun c t0 err h => by simp [constructDrift, h])
  · exact requires_of_error_propagation _ (fun c t0 err h => by simp [constructSBend, h])
  · exact requires_of_error_propagation _ (fun c t0 err h => by simp [constructQuad, h])
  · exact requires_of_error_propagation _
      (fun c t0 err h => by simp [constructSolenoid, h])
  · exact requires_of_error_propagation _
      (fun c t0 err h => by simp [constructRFCavity, h])
  · exact requires_of_error_propagation _
      (fun c t0 err h => by simp [constructStripper, h])
  · exact requires_of_error_propagation _
      (fun c t0 err h => by simp [constructEDipole, h])
  · exact requires_of_error_propagation _
      (fun c t0 err h => by simp [constructGeneric, h])
  · intro c t0
    constructor
    · intro h
      have hb := (base_requires_Frf_IonEs c t0).1 h
      simp [constructSource, hb]
    · intro v hv hI
      have hb := (base_requires_Frf_IonEs c t0).2 v hv hI
      simp [constructSource, hb]

/-- Witness for C10 at the empty configuration, for the two zero-length
types the claim singles out and for the source element. -/
theorem all_elements_require_Frf_IonEs_witness :
    constructMark emptyCfg 1 = .error Err.keyError ∧
    constructStripper emptyCfg 1 = .error Err.keyError ∧
    constructSource emptyCfg 1 = .error Err.keyError :=
  ⟨(all_elements_require_Frf_IonEs.1 emptyCfg 1).1 rfl,
   (all_elements_require_Frf_IonEs.2.2.2.2.2.2.1 emptyCfg 1).1 rfl,
   (all_elements_require_Frf_IonEs.2.2.2.2.2.2.2.2.2 emptyCfg 1).1 rfl⟩
